import Mathlib

/-!
Verification development for the DevOps Sentinel incident pipeline.

The Python sources are shallowly embedded: each agent function used by the
properties below is translated into an executable Lean definition over
explicit state and explicit inputs.  Machine time is modelled as integer
minutes, Python floats as rationals, Python dicts keyed by strings as
association lists with dict-style insert/replace semantics, and Python
exceptions as explicit error values.  External effects (regex engine calls,
network deliveries, the correlation store scan) enter the definitions as
explicit functional parameters so that the control flow around them stays
exactly the control flow of the source.
-/

namespace DevOpsSentinel

/- The Batteries library seals the rational operations against unfolding;
witness evaluations below compute with rational literals, so reducibility is
restored for them in this file. -/
attribute [local semireducible] Rat.add Rat.mul Rat.inv Rat.ofScientific Rat.sub

set_option maxRecDepth 16384

/-- Python exception values that matter for the embedded code paths. -/
inductive PyErr where
  | typeError (msg : String)
  | valueError (msg : String)
  | nameError (msg : String)
  | attributeError (msg : String)
  | timeoutError
deriving DecidableEq, Repr

/-- Test whether the second list starts with the first one (character match at the head). -/
def leadMatch : List Char → List Char → Bool
  | [], _ => true
  | _ :: _, [] => false
  | a :: as, b :: bs => a == b && leadMatch as bs

/-- Test whether the first list occurs somewhere inside the second list. -/
def subMatch (needle : List Char) : List Char → Bool
  | [] => leadMatch needle []
  | c :: rest => leadMatch needle (c :: rest) || subMatch needle rest

/-- Embedding of the Python substring test. -/
def pyIn (needle haystack : String) : Bool :=
  subMatch needle.data haystack.data

/-- Lower-casing of a string, modelling the Python lower() call. -/
def pyLower (s : String) : String :=
  String.mk (s.data.map Char.toLower)

/-- Executable minimum of two rationals, modelling the Python min call. -/
def pyMin (a b : ℚ) : ℚ :=
  if a ≤ b then a else b

theorem pyMin_eq_min (a b : ℚ) : pyMin a b = min a b := by
  unfold pyMin
  by_cases h : a ≤ b
  · rw [if_pos h, min_eq_left h]
  · rw [if_neg h, min_eq_right (le_of_not_le h)]

/-- Dict lookup on an association list: first binding for the key, if any. -/
def dlookup {α : Type} (m : List (String × α)) (k : String) : Option α :=
  match m with
  | [] => none
  | (k1, v) :: t => if k1 = k then some v else dlookup t k

/-- Dict update on an association list: replace the first binding in place,
append a fresh binding at the end otherwise, as a Python dict does. -/
def dinsert {α : Type} (m : List (String × α)) (k : String) (v : α) : List (String × α) :=
  match m with
  | [] => [(k, v)]
  | (k1, v1) :: t => if k1 = k then (k, v) :: t else (k1, v1) :: dinsert t k v

theorem dlookup_dinsert_self {α : Type} (m : List (String × α)) (k : String) (v : α) :
    dlookup (dinsert m k v) k = some v := by
  induction m with
  | nil => simp [dinsert, dlookup]
  | cons p t ih =>
    obtain ⟨k1, v1⟩ := p
    by_cases h : k1 = k
    · simp [dinsert, h, dlookup]
    · simp [dinsert, h, dlookup, ih]

theorem dlookup_dinsert_ne {α : Type} (m : List (String × α)) (k k1 : String) (v : α)
    (h : k1 ≠ k) : dlookup (dinsert m k v) k1 = dlookup m k1 := by
  have h4 : k ≠ k1 := Ne.symm h
  induction m with
  | nil => simp [dinsert, dlookup, h4]
  | cons p t ih =>
    obtain ⟨k2, v2⟩ := p
    by_cases h2 : k2 = k
    · subst h2
      simp [dinsert, dlookup, h4]
    · by_cases h3 : k2 = k1
      · simp [dinsert, h2, dlookup, h3, h]
      · simp [dinsert, h2, dlookup, h3, ih]

theorem length_dinsert_of_lookup_none {α : Type} (m : List (String × α)) (k : String) (v : α)
    (h : dlookup m k = none) : (dinsert m k v).length = m.length + 1 := by
  induction m with
  | nil => simp [dinsert]
  | cons p t ih =>
    obtain ⟨k1, v1⟩ := p
    by_cases h1 : k1 = k
    · simp [dlookup, h1] at h
    · simp [dlookup, h1] at h
      simp [dinsert, h1, ih h]

theorem length_dinsert_of_lookup_some {α : Type} (m : List (String × α)) (k : String) (v w : α)
    (h : dlookup m k = some w) : (dinsert m k v).length = m.length := by
  induction m with
  | nil => simp [dlookup] at h
  | cons p t ih =>
    obtain ⟨k1, v1⟩ := p
    by_cases h1 : k1 = k
    · simp [dinsert, h1]
    · simp [dlookup, h1] at h
      simp [dinsert, h1, ih h]

theorem dlookup_eq_none_iff {α : Type} (m : List (String × α)) (k : String) :
    dlookup m k = none ↔ k ∉ m.map Prod.fst := by
  induction m with
  | nil => simp [dlookup]
  | cons p t ih =>
    obtain ⟨k1, v1⟩ := p
    by_cases h1 : k1 = k
    · simp [dlookup, h1]
    · have h4 : ¬ k = k1 := fun hk => h1 hk.symm
      simp [dlookup, h1, ih, h4]

theorem keys_dinsert_of_lookup_none {α : Type} (m : List (String × α)) (k : String) (v : α)
    (h : dlookup m k = none) : (dinsert m k v).map Prod.fst = m.map Prod.fst ++ [k] := by
  induction m with
  | nil => simp [dinsert]
  | cons p t ih =>
    obtain ⟨k1, v1⟩ := p
    by_cases h1 : k1 = k
    · simp [dlookup, h1] at h
    · simp [dlookup, h1] at h
      simp [dinsert, h1, ih h]

theorem keys_dinsert_of_lookup_some {α : Type} (m : List (String × α)) (k : String) (v w : α)
    (h : dlookup m k = some w) : (dinsert m k v).map Prod.fst = m.map Prod.fst := by
  induction m with
  | nil => simp [dlookup] at h
  | cons p t ih =>
    obtain ⟨k1, v1⟩ := p
    by_cases h1 : k1 = k
    · simp [dinsert, h1]
    · simp [dlookup, h1] at h
      simp [dinsert, h1, ih h]

theorem nodup_keys_dinsert {α : Type} (m : List (String × α)) (k : String) (v : α)
    (h : (m.map Prod.fst).Nodup) : ((dinsert m k v).map Prod.fst).Nodup := by
  cases h2 : dlookup m k with
  | none =>
    have hk : k ∉ m.map Prod.fst := (dlookup_eq_none_iff m k).mp h2
    rw [keys_dinsert_of_lookup_none m k v h2]
    simp [List.nodup_append, h, hk]
  | some w =>
    rw [keys_dinsert_of_lookup_some m k v w h2]
    exact h

/-- Given duplicate-free keys, the bindings for one key number at most one. -/
theorem count_key_le_one {α : Type} (m : List (String × α)) (k : String)
    (h : (m.map Prod.fst).Nodup) : (m.filter (fun p => p.1 = k)).length ≤ 1 := by
  induction m with
  | nil => simp
  | cons p t ih =>
    obtain ⟨k1, v1⟩ := p
    simp only [List.map_cons, List.nodup_cons] at h
    by_cases h1 : k1 = k
    · subst h1
      have : t.filter (fun p => p.1 = k1) = [] := by
        apply List.filter_eq_nil_iff.mpr
        intro q hq hq1
        exact h.1 (List.mem_map.mpr ⟨q, hq, by simpa using hq1⟩)
      simp [List.filter, this]
    · simpa [List.filter, h1] using ih h.2

/-! Embedding of src/shared/messaging.py: the typed message bus.  Message
payloads are opaque key/value pairs; timestamps are abstract integers. -/

/-- Message types of the inter-agent bus (the MessageType enum). -/
inductive MessageType where
  | healthCheckFailure
  | triageRequest
  | triageResponse
  | analysisRequest
  | analysisResponse
  | notificationRequest
  | notificationSent
  | incidentResolved
deriving DecidableEq, Repr

/-- Wire value of each message type (the enum member values). -/
def MessageType.value : MessageType → String
  | .healthCheckFailure => "health_check_failure"
  | .triageRequest => "triage_request"
  | .triageResponse => "triage_response"
  | .analysisRequest => "analysis_request"
  | .analysisResponse => "analysis_response"
  | .notificationRequest => "notification_request"
  | .notificationSent => "notification_sent"
  | .incidentResolved => "incident_resolved"

/-- Enum lookup by value, as the MessageType constructor call performs it;
none models the ValueError raised for a string that is no member value. -/
def MessageType.fromValue (s : String) : Option MessageType :=
  if s = "health_check_failure" then some .healthCheckFailure
  else if s = "triage_request" then some .triageRequest
  else if s = "triage_response" then some .triageResponse
  else if s = "analysis_request" then some .analysisRequest
  else if s = "analysis_response" then some .analysisResponse
  else if s = "notification_request" then some .notificationRequest
  else if s = "notification_sent" then some .notificationSent
  else if s = "incident_resolved" then some .incidentResolved
  else none

/-- Message record of the bus (the Message dataclass), with the payload dict
kept as opaque string pairs. -/
structure Msg where
  id : String
  type : MessageType
  sender : String
  recipient : String
  timestamp : Int
  data : List (String × String)
  correlationId : Option String := none
  requiresResponse : Bool := false
deriving DecidableEq, Repr

/-- Possible outcomes of MessageQueue.send_response. -/
inductive SendResponseOutcome where
  | returnedFalse
  | raised (e : PyErr)
  | sentTrue (response : Msg)
deriving DecidableEq, Repr

/-- Embedding of MessageQueue.send_response: returns False when the original
message carries no correlation id, otherwise builds a response message whose
type is the MessageType constructed from the original value plus the suffix
_response; when that string is no enum value the constructor raises
ValueError.  The fresh message id and the current time enter as inputs. -/
def sendResponse (original : Msg) (newId : String) (now : Int)
    (responseData : List (String × String)) : SendResponseOutcome :=
  match original.correlationId with
  | none => .returnedFalse
  | some cid =>
    match MessageType.fromValue (original.type.value ++ "_response") with
    | none => .raised (.valueError (original.type.value ++ "_response is not a valid MessageType"))
    | some t =>
      .sentTrue
        { id := newId, type := t, sender := original.recipient,
          recipient := original.sender, timestamp := now, data := responseData,
          correlationId := some cid, requiresResponse := false }

/-- C6: the claim states that send_response succeeds exactly for originals
that require a response and carry a correlation id, producing a response
message tagged with the response type matching the request type.  On the
code, appending _response to any member value of the MessageType enum never
yields a member value again (triage_request becomes triage_request_response,
not triage_response), so the MessageType constructor raises ValueError for
every original that carries a correlation id, and send_response never
succeeds; without a correlation id it returns False as stated. -/
theorem send_response_never_succeeds :
    (∀ t : MessageType, MessageType.fromValue (t.value ++ "_response") = none) ∧
    (∀ (original : Msg) (newId : String) (now : Int) (d : List (String × String)),
      sendResponse original newId now d =
        match original.correlationId with
        | none => SendResponseOutcome.returnedFalse
        | some _ => SendResponseOutcome.raised
            (PyErr.valueError (original.type.value ++ "_response is not a valid MessageType"))) := by
  constructor
  · intro t
    cases t <;> rfl
  · intro original newId now d
    obtain ⟨i, ty, s, r, ts, dd, cid, rr⟩ := original
    cases cid with
    | none => rfl
    | some c => cases ty <;> rfl

/-! Embedding of src/agents/monitoring/health_check.py: incident lifecycle
driven by per-endpoint health probes.  A probe observation is a
HealthCheckResult; the per-endpoint consecutive-failure counter of
HealthChecker and the active-incident dict of MonitoringAgent are threaded
explicitly. -/

/-- Incident lifecycle states (the IncidentStatus enum). -/
inductive IncidentStatus where
  | detected
  | investigating
  | analyzed
  | resolved
deriving DecidableEq, Repr

/-- Alert severity levels (the AlertLevel enum). -/
inductive AlertLevel where
  | low
  | medium
  | high
  | critical
deriving DecidableEq, Repr

/-- Health check result record (the HealthCheckResult dataclass). -/
structure HealthCheckResult where
  endpointName : String
  url : String
  statusCode : Int
  responseTime : ℚ
  timestamp : Int
  success : Bool
  errorMessage : Option String := none
  sslExpiryDays : Option Int := none
deriving DecidableEq, Repr

/-- Incident record (the Incident dataclass); the optional triage, analysis
and notification payloads are never read by the monitoring agent and are
elided. -/
structure Incident where
  id : String
  endpointName : String
  status : IncidentStatus
  alertLevel : AlertLevel
  timestamp : Int
  lastUpdated : Int
  healthCheckResult : HealthCheckResult
deriving DecidableEq, Repr

/-- State of the monitoring agent: the active-incident dict keyed by
endpoint name. -/
structure MonState where
  activeIncidents : List (String × Incident)
deriving DecidableEq, Repr

/-- Triage request payload sent by AgentCommunication.send_triage_request. -/
structure TriageRequest where
  incidentId : String
  endpointName : String
  url : String
deriving DecidableEq, Repr

/-- Health check failure alert payload, projected to the fields filled in by
MessageFormatter.format_health_check_alert. -/
structure FailureAlert where
  incidentId : String
  endpointName : String
  alertLevel : AlertLevel
  timestamp : Int
deriving DecidableEq, Repr

/-- Embedding of MonitoringAgent._determine_alert_level. -/
def determineAlertLevel (result : HealthCheckResult) : AlertLevel :=
  if (match result.errorMessage with
      | some m => pyIn "timeout" (pyLower m)
      | none => false) then .high
  else if 500 ≤ result.statusCode then .critical
  else if 400 ≤ result.statusCode then .medium
  else .low

/-- Embedding of MonitoringAgent._handle_endpoint_failure.  Output: the new
agent state, the failure alerts sent, and the triage requests emitted.  The
fresh incident id and the current time enter as inputs.  When the endpoint
already has an entry in the active-incident dict (whatever its status), only
last_updated is touched; otherwise a new detected incident is stored, one
failure alert is sent and one triage request is emitted. -/
def handleEndpointFailure (st : MonState) (result : HealthCheckResult) (now : Int)
    (newId : String) : MonState × List FailureAlert × List TriageRequest :=
  match dlookup st.activeIncidents result.endpointName with
  | some incident =>
    (⟨dinsert st.activeIncidents result.endpointName { incident with lastUpdated := now }⟩,
      [], [])
  | none =>
    let incident : Incident :=
      { id := newId, endpointName := result.endpointName, status := .detected,
        alertLevel := determineAlertLevel result, timestamp := result.timestamp,
        lastUpdated := result.timestamp, healthCheckResult := result }
    (⟨dinsert st.activeIncidents result.endpointName incident⟩,
      [⟨incident.id, incident.endpointName, incident.alertLevel, incident.timestamp⟩],
      [⟨incident.id, incident.endpointName, result.url⟩])

/-- Embedding of MonitoringAgent._check_incident_resolution. -/
def checkIncidentResolution (st : MonState) (result : HealthCheckResult) : MonState :=
  match dlookup st.activeIncidents result.endpointName with
  | some incident =>
    ⟨dinsert st.activeIncidents result.endpointName
      { incident with status := .resolved, lastUpdated := result.timestamp }⟩
  | none => st

/-- Consecutive-failure counter update performed by HealthChecker.check_health:
a success resets the streak to zero, any failure (bad response or exception)
increments it. -/
def checkHealthStreak (failures : Nat) (success : Bool) : Nat :=
  if success then 0 else failures + 1

/-- Embedding of HealthChecker.should_trigger_incident. -/
def shouldTriggerIncident (failures threshold : Nat) : Bool :=
  threshold ≤ failures

/-- Embedding of MonitoringAgent._check_endpoint for a single probe
observation: check_health updates the failure streak, then a failed probe at
or above the threshold is handed to _handle_endpoint_failure and a successful
probe to _check_incident_resolution.  Output: new agent state, new failure
streak, alerts sent, triage requests emitted. -/
def checkEndpointStep (st : MonState) (failures threshold : Nat)
    (result : HealthCheckResult) (now : Int) (newId : String) :
    MonState × Nat × List FailureAlert × List TriageRequest :=
  let failures1 := checkHealthStreak failures result.success
  if !result.success && shouldTriggerIncident failures1 threshold then
    let out := handleEndpointFailure st result now newId
    (out.1, failures1, out.2.1, out.2.2)
  else if result.success then
    (checkIncidentResolution st result, failures1, [], [])
  else
    (st, failures1, [], [])

/-- Fixture: a probe observation recorded while an incident was created. -/
def probeOk : HealthCheckResult :=
  { endpointName := "svc-a", url := "http://svc-a/health", statusCode := 200,
    responseTime := 45, timestamp := 1, success := true }

/-- Fixture: a failing probe observation on svc-a. -/
def probeFail : HealthCheckResult :=
  { endpointName := "svc-a", url := "http://svc-a/health", statusCode := 503,
    responseTime := 120, timestamp := 10, success := false,
    errorMessage := some "HTTP 503 error" }

/-- Fixture: an incident on svc-a that a success observation already moved to
Resolved but that the 24-hour retention cleanup has not yet purged. -/
def resolvedIncident : Incident :=
  { id := "INC_1", endpointName := "svc-a", status := .resolved,
    alertLevel := .critical, timestamp := 0, lastUpdated := 5,
    healthCheckResult := probeOk }

/-- Fixture: monitoring state holding only the lingering resolved incident. -/
def monStateResolved : MonState := ⟨[("svc-a", resolvedIncident)]⟩

/-- C1 counterexample: with the failure threshold 2 reached (streak 2 + 1)
and no open (non-Resolved) incident on svc-a — the only tracked incident is
already Resolved, merely not yet purged — the claim demands a fresh Incident
and a triage request, yet _handle_endpoint_failure emits no triage request
and creates no incident: the active-incident dict still holds only INC_1,
because the existence check keys on dict membership, not on status. -/
theorem resolved_entry_blocks_new_incident :
    (∀ p ∈ monStateResolved.activeIncidents, p.2.status = IncidentStatus.resolved) ∧
    shouldTriggerIncident (checkHealthStreak 2 probeFail.success) 2 = true ∧
    (checkEndpointStep monStateResolved 2 2 probeFail 10 "INC_2").2.2.2 = [] ∧
    (checkEndpointStep monStateResolved 2 2 probeFail 10 "INC_2").2.2.1 = [] ∧
    (checkEndpointStep monStateResolved 2 2 probeFail 10 "INC_2").1.activeIncidents.map
      (fun p => p.2.id) = ["INC_1"] := by
  decide

/-- C1 as amended: the active-incident dict keyed by endpoint keeps at most
one incident per endpoint (so in particular at most one non-Resolved one),
and _handle_endpoint_failure creates exactly one new Incident and emits
exactly one failure alert and one triage request precisely when the endpoint
has no entry at all in the dict; when any entry exists — open or already
Resolved and awaiting cleanup — it only refreshes last_updated, with no new
incident, no alert and no triage request. -/
theorem handle_endpoint_failure_keyed_behavior (st : MonState)
    (r : HealthCheckResult) (now : Int) (newId : String) :
    ((st.activeIncidents.map Prod.fst).Nodup →
      (((handleEndpointFailure st r now newId).1.activeIncidents.map Prod.fst).Nodup ∧
       ∀ e, (((handleEndpointFailure st r now newId).1.activeIncidents.filter
         (fun p => p.1 = e)).length ≤ 1))) ∧
    (dlookup st.activeIncidents r.endpointName = none →
      ((handleEndpointFailure st r now newId).2.1.length = 1 ∧
       (handleEndpointFailure st r now newId).2.2 = [⟨newId, r.endpointName, r.url⟩] ∧
       (∃ inc, dlookup (handleEndpointFailure st r now newId).1.activeIncidents
           r.endpointName = some inc ∧
         inc.id = newId ∧ inc.status = .detected ∧ inc.lastUpdated = r.timestamp) ∧
       (handleEndpointFailure st r now newId).1.activeIncidents.length
         = st.activeIncidents.length + 1)) ∧
    (∀ inc, dlookup st.activeIncidents r.endpointName = some inc →
      ((handleEndpointFailure st r now newId).2.1 = [] ∧
       (handleEndpointFailure st r now newId).2.2 = [] ∧
       dlookup (handleEndpointFailure st r now newId).1.activeIncidents r.endpointName
         = some { inc with lastUpdated := now } ∧
       (handleEndpointFailure st r now newId).1.activeIncidents.length
         = st.activeIncidents.length ∧
       (∀ e, e ≠ r.endpointName →
         dlookup (handleEndpointFailure st r now newId).1.activeIncidents e
           = dlookup st.activeIncidents e))) := by
  cases hl : dlookup st.activeIncidents r.endpointName with
  | none =>
    refine ⟨?_, ?_, ?_⟩
    · intro hnodup
      have h1 : (((handleEndpointFailure st r now newId).1.activeIncidents.map
          Prod.fst).Nodup) := by
        simp only [handleEndpointFailure, hl]
        exact nodup_keys_dinsert _ _ _ hnodup
      exact ⟨h1, fun e => count_key_le_one _ e h1⟩
    · intro _
      simp only [handleEndpointFailure, hl]
      refine ⟨by simp, by simp, ⟨_, dlookup_dinsert_self _ _ _, by simp, by simp, by simp⟩, ?_⟩
      exact length_dinsert_of_lookup_none _ _ _ hl
    · intro inc hinc
      exact Option.noConfusion hinc
  | some inc0 =>
    refine ⟨?_, ?_, ?_⟩
    · intro hnodup
      have h1 : (((handleEndpointFailure st r now newId).1.activeIncidents.map
          Prod.fst).Nodup) := by
        simp only [handleEndpointFailure, hl]
        exact nodup_keys_dinsert _ _ _ hnodup
      exact ⟨h1, fun e => count_key_le_one _ e h1⟩
    · intro hnone
      exact Option.noConfusion hnone
    · intro inc hinc
      obtain rfl : inc0 = inc := by injection hinc
      simp only [handleEndpointFailure, hl]
      refine ⟨by simp, by simp, dlookup_dinsert_self _ _ _, ?_, ?_⟩
      · exact length_dinsert_of_lookup_some _ _ _ _ hl
      · intro e he
        exact dlookup_dinsert_ne _ _ _ _ he

/-- Fixture: empty monitoring state. -/
def monStateEmpty : MonState := ⟨[]⟩

/-- Witness for the amended C1 theorem: on the empty state, the failing probe
on svc-a yields exactly one alert, one triage request and one new detected
incident. -/
theorem handle_endpoint_failure_keyed_behavior_witness :
    dlookup monStateEmpty.activeIncidents probeFail.endpointName = none ∧
    ((handleEndpointFailure monStateEmpty probeFail 10 "INC_2").2.1.length = 1 ∧
     (handleEndpointFailure monStateEmpty probeFail 10 "INC_2").2.2
       = [⟨"INC_2", probeFail.endpointName, probeFail.url⟩] ∧
     (∃ inc, dlookup (handleEndpointFailure monStateEmpty probeFail 10 "INC_2").1.activeIncidents
         probeFail.endpointName = some inc ∧
       inc.id = "INC_2" ∧ inc.status = .detected ∧ inc.lastUpdated = probeFail.timestamp) ∧
     (handleEndpointFailure monStateEmpty probeFail 10 "INC_2").1.activeIncidents.length
       = monStateEmpty.activeIncidents.length + 1) :=
  ⟨by decide,
    (handle_endpoint_failure_keyed_behavior monStateEmpty probeFail 10 "INC_2").2.1 (by decide)⟩

/-- Fixture: an open (Detected) incident on svc-a. -/
def openIncident : Incident :=
  { id := "INC_1", endpointName := "svc-a", status := .detected,
    alertLevel := .critical, timestamp := 0, lastUpdated := 0,
    healthCheckResult := probeFail }

/-- Fixture: monitoring state holding the open incident. -/
def monStateOpen : MonState := ⟨[("svc-a", openIncident)]⟩

/-- C7: a successful probe observation on an endpoint whose incident is
tracked resets the consecutive-failure streak to zero and, in the same poll
cycle, moves the incident to Resolved with last_updated set to the
observation timestamp; moreover every successful probe resets the streak. -/
theorem success_resolves_open_incident (st : MonState) (failures threshold : Nat)
    (r : HealthCheckResult) (now : Int) (newId : String) (inc : Incident)
    (hs : r.success = true)
    (hinc : dlookup st.activeIncidents r.endpointName = some inc) :
    (checkEndpointStep st failures threshold r now newId).2.1 = 0 ∧
    dlookup (checkEndpointStep st failures threshold r now newId).1.activeIncidents
        r.endpointName
      = some { inc with status := .resolved, lastUpdated := r.timestamp } ∧
    (∀ f, checkHealthStreak f true = 0) := by
  refine ⟨?_, ?_, fun f => rfl⟩
  · simp [checkEndpointStep, hs, checkHealthStreak]
  · simp [checkEndpointStep, hs, checkHealthStreak, checkIncidentResolution, hinc,
      dlookup_dinsert_self]

/-- Witness for C7: the success observation on svc-a resolves the open
incident and zeroes the streak. -/
theorem success_resolves_open_incident_witness :
    probeOk.success = true ∧
    dlookup monStateOpen.activeIncidents probeOk.endpointName = some openIncident ∧
    ((checkEndpointStep monStateOpen 1 2 probeOk 20 "INC_3").2.1 = 0 ∧
     dlookup (checkEndpointStep monStateOpen 1 2 probeOk 20 "INC_3").1.activeIncidents
         probeOk.endpointName
       = some { openIncident with status := .resolved, lastUpdated := probeOk.timestamp } ∧
     (∀ f, checkHealthStreak f true = 0)) :=
  ⟨rfl, by decide,
    success_resolves_open_incident monStateOpen 1 2 probeOk 20 "INC_3" openIncident
      rfl (by decide)⟩

/-! Embedding of TriageAgent._collect_diagnostic_data from
src/agents/triage/data_collector.py.  Each collector coroutine is modelled
by the outcome it would produce if awaited; the asyncio plumbing around the
collectors is modelled precisely enough to capture which Python values reach
asyncio.gather. -/

/-- Outcome a collector coroutine would deliver when awaited: a structured
result (kept opaque) or a raised exception carried as its message. -/
inductive CollectorOutcome where
  | ok (result : String)
  | exn (msg : String)
deriving DecidableEq, Repr

/-- Python value handed to the asyncio machinery: either an awaitable
coroutine, or a (name, coroutine) tuple — which is not awaitable. -/
inductive PyTask where
  | coro (outcome : CollectorOutcome)
  | namedTuple (name : String) (inner : PyTask)
deriving DecidableEq, Repr

/-- Argument admission of asyncio.ensure_future: a coroutine is scheduled,
anything else — in particular a tuple — raises TypeError. -/
def ensureFuture : PyTask → Except PyErr CollectorOutcome
  | .coro o => .ok o
  | .namedTuple _ _ => .error (.typeError "An asyncio.Future, a coroutine or an awaitable is required")

/-- Embedding of asyncio.gather with return_exceptions=True: every argument
passes through ensure_future when gather is called, so a non-awaitable
argument raises TypeError immediately; child exceptions would be returned as
values, which the CollectorOutcome encoding already carries. -/
def asyncioGather (args : List PyTask) : Except PyErr (List CollectorOutcome) :=
  args.mapM ensureFuture

/-- Entry stored in the data_collection dict for one collector: the
collector result or the explicit error marker dict built from a returned
exception. -/
inductive DataEntry where
  | collected (result : String)
  | errorMarker (msg : String)
deriving DecidableEq, Repr

/-- Diagnostic bundle returned by _collect_diagnostic_data, as a record of
the keys the three return paths produce; absent keys are none.  The derived
summary of the completed path is elided (no property below concerns it). -/
structure TriageBundle where
  incidentId : String
  endpointName : Option String
  endpointUrl : Option String
  dataCollection : Option (List (String × DataEntry))
  status : Option String
  errorMsg : Option String
deriving DecidableEq, Repr

/-- Message text of a Python exception (str applied to the exception). -/
def pyErrText : PyErr → String
  | .typeError m => m
  | .valueError m => m
  | .nameError m => m
  | .attributeError m => m
  | .timeoutError => ""

/-- Embedding of TriageAgent._collect_diagnostic_data.  The three collector
coroutines enter as their eventual outcomes and the overall deadline as the
flag telling whether it would expire before all collectors return.  The
source builds collection_tasks as (name, coroutine) tuples and passes those
tuples themselves to asyncio.gather; gather is evaluated before
asyncio.wait_for wraps it, so a TypeError from gather precedes any
TimeoutError.  TimeoutError lands in the timeout return path, every other
exception in the generic error return path. -/
def collectDiagnosticData (incidentId endpointName endpointUrl : String)
    (logsOutcome netOutcome metricsOutcome : CollectorOutcome)
    (deadlineExpires : Bool) : TriageBundle :=
  let collectionTasks : List (String × PyTask) :=
    [("logs", .coro logsOutcome),
     ("network_diagnostics", .coro netOutcome),
     ("system_metrics", .coro metricsOutcome)]
  let gathered : Except PyErr (List CollectorOutcome) :=
    asyncioGather (collectionTasks.map (fun p => PyTask.namedTuple p.1 p.2))
  let awaited : Except PyErr (List CollectorOutcome) :=
    match gathered with
    | .error e => .error e
    | .ok results => if deadlineExpires then .error .timeoutError else .ok results
  match awaited with
  | .ok results =>
    { incidentId := incidentId, endpointName := some endpointName,
      endpointUrl := some endpointUrl,
      dataCollection := some (((collectionTasks.map Prod.fst).zip results).map
        (fun p => (p.1, match p.2 with
          | .exn m => DataEntry.errorMarker m
          | .ok r => DataEntry.collected r))),
      status := none, errorMsg := none }
  | .error .timeoutError =>
    { incidentId := incidentId, endpointName := none, endpointUrl := none,
      dataCollection := none, status := some "timeout",
      errorMsg := some "Data collection timed out" }
  | .error e =>
    { incidentId := incidentId, endpointName := none, endpointUrl := none,
      dataCollection := none, status := some "error",
      errorMsg := some (pyErrText e) }

/-- C2: the claim demands one data_collection entry per registered collector
— result or explicit error marker — and, on deadline expiry, a bundle still
carrying the completed subset under a timeout status.  On the code neither
happens for any input: collection_tasks holds (name, coroutine) tuples and
the call asyncio.gather(*collection_tasks, ...) receives the tuples, which
are not awaitable, so gather raises TypeError on every invocation; the
generic except branch then returns a bundle that carries no data_collection
key at all, only an error status.  The timeout return path — which would
also drop all collector results rather than keep the completed subset — is
unreachable. -/
theorem collect_diagnostic_data_never_populates_bundle :
    ∀ (incidentId endpointName endpointUrl : String)
      (logsOutcome netOutcome metricsOutcome : CollectorOutcome)
      (deadlineExpires : Bool),
      collectDiagnosticData incidentId endpointName endpointUrl
          logsOutcome netOutcome metricsOutcome deadlineExpires =
        { incidentId := incidentId, endpointName := none, endpointUrl := none,
          dataCollection := none, status := some "error",
          errorMsg := some "An asyncio.Future, a coroutine or an awaitable is required" } := by
  intro incidentId endpointName endpointUrl logsOutcome netOutcome metricsOutcome deadlineExpires
  rfl

/-! Embedding of AlertDeliveryService from
src/agents/notification/delivery_service.py: cooldown suppression around the
channel fan-out.  Times are integer minutes; the network outcome of each
channel delivery enters as a functional parameter. -/

/-- Incident fields the dispatcher reads from the notification request. -/
structure NotifIncident where
  id : String
  endpointName : String
  alertLevel : String
deriving DecidableEq, Repr

/-- Per-channel configuration the dispatcher reads. -/
structure ChannelConfig where
  enabled : Bool
  minAlertLevel : Option String := none
deriving DecidableEq, Repr

/-- Notification agent configuration: the delivery_channels dict and the
cooldown_period in minutes (default 15 applied at load time). -/
structure NotifConfig where
  deliveryChannels : List (String × ChannelConfig)
  cooldownPeriod : Int
deriving DecidableEq, Repr

/-- Embedding of the level_hierarchy dict lookup inside _should_use_channel. -/
def levelHierarchy (level : String) : Option Int :=
  if level = "low" then some 1
  else if level = "medium" then some 2
  else if level = "high" then some 3
  else if level = "critical" then some 4
  else none

/-- Embedding of AlertDeliveryService._should_use_channel. -/
def shouldUseChannel (currentLevel minLevel : String) : Bool :=
  ((levelHierarchy minLevel).getD 1) ≤ ((levelHierarchy currentLevel).getD 2)

/-- Embedding of AlertDeliveryService._initialize_delivery_services: the
service registry holds the four known channel names that are configured and
enabled, in fixed order. -/
def deliveryServices (cfg : NotifConfig) : List String :=
  ["slack", "email", "pagerduty", "teams"].filter (fun n =>
    match dlookup cfg.deliveryChannels n with
    | some c => c.enabled
    | none => false)

/-- Embedding of AlertDeliveryService._determine_delivery_channels. -/
def determineDeliveryChannels (cfg : NotifConfig) (incident : NotifIncident) :
    List String :=
  let channels := (cfg.deliveryChannels.filter (fun p =>
    p.2.enabled && shouldUseChannel incident.alertLevel (p.2.minAlertLevel.getD "low"))).map
    Prod.fst
  if channels = [] && !(deliveryServices cfg).isEmpty then
    (deliveryServices cfg).take 1
  else channels

/-- Composite cooldown key built by the dispatcher: endpoint plus severity. -/
def cooldownKey (incident : NotifIncident) : String :=
  incident.endpointName ++ ":" ++ incident.alertLevel

/-- Embedding of AlertDeliveryService._is_in_cooldown. -/
def isInCooldown (cfg : NotifConfig) (recentAlerts : List (String × Int))
    (incident : NotifIncident) (now : Int) : Bool :=
  match dlookup recentAlerts (cooldownKey incident) with
  | some lastAlertTime => now - lastAlertTime < cfg.cooldownPeriod
  | none => false

/-- Embedding of AlertDeliveryService._update_cooldown_tracking: record the
delivery time under the key, then prune entries older than one hour. -/
def updateCooldownTracking (recentAlerts : List (String × Int))
    (incident : NotifIncident) (now : Int) : List (String × Int) :=
  (dinsert recentAlerts (cooldownKey incident) now).filter
    (fun p => !(p.2 < now - 60))

/-- Response payload dict appearing at a send_response call site of
_process_notification_request (the delivery_results list of the completed
dict is elided; no property below reads it). -/
structure NotifResponse where
  status : String
  reason : Option String := none
  successfulDeliveries : Option Nat := none
  failedDeliveries : Option Nat := none
  incidentId : Option String := none
deriving DecidableEq, Repr

/-- Methods the AgentCommunication class defines (messaging.py, class body
lines 122-219).  send_response is not among them: that method exists only on
MessageQueue. -/
def agentCommunicationMethods : List String :=
  ["send_triage_request", "send_analysis_request", "send_notification_request",
   "send_health_check_failure_alert", "process_messages"]

/-- Python attribute lookup self.communication.name on an AgentCommunication
instance: a name outside the method table raises AttributeError. -/
def agentCommunicationGetAttr (name : String) : Except PyErr Unit :=
  if name ∈ agentCommunicationMethods then Except.ok ()
  else Except.error (PyErr.attributeError
    ("AgentCommunication object has no attribute " ++ name))

/-- The attribute lookup that every self.communication.send_response call
site performs before any of its arguments is evaluated. -/
def sendResponseAttr : Except PyErr Unit :=
  agentCommunicationGetAttr "send_response"

theorem sendResponseAttr_raises :
    sendResponseAttr = Except.error (PyErr.attributeError
      "AgentCommunication object has no attribute send_response") := by
  rfl

/-- Embedding of AlertDeliveryService._process_notification_request.
Output, in order: the control outcome of the method, the response payload
dict written at the send_response call site the taken branch reaches, the
number of times the channel fan-out _deliver_alerts was invoked (the
delivery attempts of the claim), and the cooldown map afterwards.  Each
branch of the try block ends by calling self.communication.send_response
with its response dict after its state effects; that attribute lookup
raises AttributeError before the dict literal is even evaluated — the
recorded payload is what the source names there, never sent at runtime —
the except clause catches the error, calls send_response again, and the
second AttributeError propagates out, so the control outcome is always that
raised error and no response message is produced. -/
def processNotificationRequest (cfg : NotifConfig) (recentAlerts : List (String × Int))
    (incident : NotifIncident) (now : Int) (channelOutcome : String → Bool) :
    Except PyErr Unit × NotifResponse × Nat × List (String × Int) :=
  let branch : NotifResponse × Nat × List (String × Int) :=
    if isInCooldown cfg recentAlerts incident now then
      ({ status := "skipped", reason := some "cooldown_period",
         incidentId := some incident.id }, 0, recentAlerts)
    else
      let channels := determineDeliveryChannels cfg incident
      if channels = [] then
        ({ status := "failed", reason := some "no_delivery_channels",
           incidentId := some incident.id }, 0, recentAlerts)
      else
        let results := (channels.filter (fun c => c ∈ deliveryServices cfg)).map
          (fun c => (c, channelOutcome c))
        ({ status := "completed", incidentId := some incident.id,
           successfulDeliveries := some (results.filter (fun p => p.2)).length,
           failedDeliveries := some (results.filter (fun p => !p.2)).length },
         1, updateCooldownTracking recentAlerts incident now)
  let outcome : Except PyErr Unit :=
    match sendResponseAttr with
    | .ok u => .ok u
    | .error _ =>
      match sendResponseAttr with
      | .ok u => .ok u
      | .error e2 => .error e2
  (outcome, branch)

theorem dlookup_filter_dinsert {α : Type} (m : List (String × α)) (k : String) (v : α)
    (p : String × α → Bool) (hp : p (k, v) = true) :
    dlookup ((dinsert m k v).filter p) k = some v := by
  induction m with
  | nil => simp [dinsert, List.filter, hp, dlookup]
  | cons q t ih =>
    obtain ⟨k1, v1⟩ := q
    by_cases h1 : k1 = k
    · simp [dinsert, h1, List.filter, hp, dlookup]
    · cases h2 : p (k1, v1) with
      | true => simp [dinsert, h1, List.filter, h2, dlookup, ih]
      | false => simp [dinsert, h1, List.filter, h2, ih]

/-- Cooldown entry after an update: the key just delivered maps to the
delivery time (the fresh entry survives the one-hour pruning). -/
theorem updateCooldownTracking_lookup_self (recentAlerts : List (String × Int))
    (incident : NotifIncident) (now : Int) :
    dlookup (updateCooldownTracking recentAlerts incident now) (cooldownKey incident)
      = some now := by
  apply dlookup_filter_dinsert
  have h : ¬ (now < now - 60) := by omega
  simp [h]

/-- C3: the claim states that the dispatcher performs one delivery attempt
for the first of two same-key requests inside the cooldown window and
responds to the second with status skipped and reason cooldown_period.  The
suppression mechanics do hold on the code: the first request — not in
cooldown, with an eligible channel — invokes the _deliver_alerts fan-out
exactly once and stamps the cooldown map at its time, the second request
invokes no fan-out, reaches the send_response call site carrying the
skipped/cooldown_period dict, and leaves the map untouched, and the map
changes only on requests whose fan-out ran.  But no request is ever
answered: AgentCommunication defines no send_response method, so every
self.communication.send_response call raises AttributeError — as does the
retry inside the except clause — and _process_notification_request always
propagates that error instead of responding. -/
theorem cooldown_skip_response_never_delivered (cfg : NotifConfig)
    (recentAlerts : List (String × Int)) (incident1 incident2 : NotifIncident)
    (t0 t1 : Int) (outcome1 outcome2 : String → Bool)
    (hkey : cooldownKey incident2 = cooldownKey incident1)
    (hfree : isInCooldown cfg recentAlerts incident1 t0 = false)
    (hch : determineDeliveryChannels cfg incident1 ≠ [])
    (hwin : t1 - t0 < cfg.cooldownPeriod) :
    ((processNotificationRequest cfg recentAlerts incident1 t0 outcome1).2.1.status
        = "completed" ∧
     (processNotificationRequest cfg recentAlerts incident1 t0 outcome1).2.2.1 = 1) ∧
    ((processNotificationRequest cfg
        (processNotificationRequest cfg recentAlerts incident1 t0 outcome1).2.2.2
        incident2 t1 outcome2).2
      = ({ status := "skipped", reason := some "cooldown_period",
           incidentId := some incident2.id }, 0,
         (processNotificationRequest cfg recentAlerts incident1 t0 outcome1).2.2.2)) ∧
    (∀ (ra : List (String × Int)) (inc : NotifIncident) (t : Int) (oc : String → Bool),
      (processNotificationRequest cfg ra inc t oc).1
        = Except.error (PyErr.attributeError
            "AgentCommunication object has no attribute send_response") ∧
      ((processNotificationRequest cfg ra inc t oc).2.2.1 = 0 →
       (processNotificationRequest cfg ra inc t oc).2.2.2 = ra)) := by
  have hfirst : (processNotificationRequest cfg recentAlerts incident1 t0 outcome1).2
      = ({ status := "completed", incidentId := some incident1.id,
           successfulDeliveries := some
             ((((determineDeliveryChannels cfg incident1).filter
               (fun c => c ∈ deliveryServices cfg)).map
               (fun c => (c, outcome1 c))).filter (fun p => p.2)).length,
           failedDeliveries := some
             ((((determineDeliveryChannels cfg incident1).filter
               (fun c => c ∈ deliveryServices cfg)).map
               (fun c => (c, outcome1 c))).filter (fun p => !p.2)).length },
         1, updateCooldownTracking recentAlerts incident1 t0) := by
    simp only [processNotificationRequest, hfree, Bool.false_eq_true, if_false]
    rw [if_neg hch]
  have hcool : isInCooldown cfg
      (processNotificationRequest cfg recentAlerts incident1 t0 outcome1).2.2.2
      incident2 t1 = true := by
    rw [hfirst]
    simp only [isInCooldown, hkey, updateCooldownTracking_lookup_self]
    simpa using hwin
  refine ⟨⟨by rw [hfirst], by rw [hfirst]⟩, ?_, ?_⟩
  · generalize hX : (processNotificationRequest cfg recentAlerts incident1 t0 outcome1).2.2.2
      = ra1 at hcool ⊢
    simp only [processNotificationRequest, hcool, if_true]
  · intro ra inc t oc
    refine ⟨by simp only [processNotificationRequest, sendResponseAttr_raises], ?_⟩
    intro h0
    by_cases h1 : isInCooldown cfg ra inc t
    · simp [processNotificationRequest, h1]
    · by_cases h2 : determineDeliveryChannels cfg inc = []
      · simp [processNotificationRequest, h1, h2]
      · exfalso
        simp [processNotificationRequest, h1, h2] at h0

/-- Fixture: notification config with one always-eligible channel and the
default 15-minute cooldown window. -/
def notifCfg : NotifConfig :=
  { deliveryChannels := [("slack", { enabled := true })], cooldownPeriod := 15 }

/-- Fixture: the notification request for the analyzed svc-a incident. -/
def notifIncident1 : NotifIncident :=
  { id := "INC_1", endpointName := "svc-a", alertLevel := "high" }

/-- Witness for C3: the request at minute 0 is delivered, the identical
request at minute 5 is skipped with reason cooldown_period, zero attempts,
and an unchanged cooldown map. -/
theorem cooldown_skip_response_never_delivered_witness :
    (cooldownKey notifIncident1 = cooldownKey notifIncident1 ∧
     isInCooldown notifCfg [] notifIncident1 0 = false ∧
     determineDeliveryChannels notifCfg notifIncident1 ≠ [] ∧
     (5 : Int) - 0 < notifCfg.cooldownPeriod) ∧
    ((processNotificationRequest notifCfg [] notifIncident1 0 (fun _ => true)).2.1.status
        = "completed" ∧
     (processNotificationRequest notifCfg [] notifIncident1 0 (fun _ => true)).2.2.1 = 1) ∧
    ((processNotificationRequest notifCfg
        (processNotificationRequest notifCfg [] notifIncident1 0 (fun _ => true)).2.2.2
        notifIncident1 5 (fun _ => true)).2
      = ({ status := "skipped", reason := some "cooldown_period",
           incidentId := some notifIncident1.id }, 0,
         (processNotificationRequest notifCfg [] notifIncident1 0 (fun _ => true)).2.2.2)) ∧
    (processNotificationRequest notifCfg [] notifIncident1 0 (fun _ => true)).1
      = Except.error (PyErr.attributeError
          "AgentCommunication object has no attribute send_response") :=
  ⟨⟨rfl, by decide, by decide, by decide⟩,
    ((cooldown_skip_response_never_delivered notifCfg [] notifIncident1 notifIncident1
      0 5 (fun _ => true) (fun _ => true) rfl (by decide) (by decide) (by decide)).1),
    ((cooldown_skip_response_never_delivered notifCfg [] notifIncident1 notifIncident1
      0 5 (fun _ => true) (fun _ => true) rfl (by decide) (by decide) (by decide)).2.1),
    ((cooldown_skip_response_never_delivered notifCfg [] notifIncident1 notifIncident1
      0 5 (fun _ => true) (fun _ => true) rfl (by decide) (by decide)
      (by decide)).2.2 [] notifIncident1 0 (fun _ => true)).1⟩

/-! Embedding of src/agents/analysis/llm_analyzer.py: pattern scoring,
hypothesis ranking and root-cause analysis.  Python floats become rationals.
The regular-expression engine enters as a functional oracle so that the
arithmetic and control flow around it are exact; the substring tests the
scoring performs directly are computed exactly. -/

/-- Known-issue pattern entry of the catalog built by
LLMPatternMatcher._initialize_patterns. -/
structure AnalysisPatternConfig where
  keywords : List String
  evidencePatterns : List String
  confidenceBoost : ℚ
  actions : List String
deriving DecidableEq, Repr

/-- Catalog entry database_connection_error. -/
def databaseConnectionErrorPattern : AnalysisPatternConfig :=
  { keywords := ["connection refused", "timeout", "connection pool", "database", "sql"],
    evidencePatterns := ["connection.*refused", "database.*timeout",
      "connection.*pool.*exhausted", "sql.*error"],
    confidenceBoost := 0.3,
    actions := ["Check database server availability",
      "Verify connection string and credentials",
      "Check connection pool settings",
      "Monitor database server resources"] }

/-- Catalog entry memory_leak. -/
def memoryLeakPattern : AnalysisPatternConfig :=
  { keywords := ["out of memory", "memory", "heap", "oom", "allocation"],
    evidencePatterns := ["out of memory", "memory.*usage.*high", "heap.*space",
      "allocation.*failed"],
    confidenceBoost := 0.25,
    actions := ["Analyze memory usage patterns",
      "Check for memory leaks in application code",
      "Increase heap size if appropriate",
      "Monitor garbage collection metrics"] }

/-- Catalog entry network_connectivity. -/
def networkConnectivityPattern : AnalysisPatternConfig :=
  { keywords := ["network", "connection", "timeout", "unreachable", "dns"],
    evidencePatterns := ["network.*unreachable", "connection.*timeout",
      "dns.*resolution.*failed", "host.*unreachable"],
    confidenceBoost := 0.2,
    actions := ["Verify network connectivity between services",
      "Check DNS resolution",
      "Verify firewall rules",
      "Test network latency and packet loss"] }

/-- Catalog entry ssl_certificate. -/
def sslCertificatePattern : AnalysisPatternConfig :=
  { keywords := ["ssl", "certificate", "tls", "handshake", "expired"],
    evidencePatterns := ["ssl.*certificate.*expired", "certificate.*error",
      "tls.*handshake.*failed", "certificate.*invalid"],
    confidenceBoost := 0.4,
    actions := ["Renew SSL certificate",
      "Verify certificate chain",
      "Check certificate installation",
      "Update certificate trust store"] }

/-- Catalog entry service_overload. -/
def serviceOverloadPattern : AnalysisPatternConfig :=
  { keywords := ["overload", "too many requests", "rate limit", "high cpu", "high memory"],
    evidencePatterns := ["too many requests", "rate limit.*exceeded",
      "cpu.*usage.*high", "memory.*usage.*high"],
    confidenceBoost := 0.2,
    actions := ["Scale up service resources",
      "Implement rate limiting",
      "Optimize application performance",
      "Add load balancing"] }

/-- Catalog entry deployment_issue. -/
def deploymentIssuePattern : AnalysisPatternConfig :=
  { keywords := ["deployment", "release", "version", "rollback", "config"],
    evidencePatterns := ["deployment.*failed", "version.*mismatch",
      "configuration.*error", "rollback.*required"],
    confidenceBoost := 0.35,
    actions := ["Review recent deployment changes",
      "Consider rolling back to previous version",
      "Verify configuration files",
      "Check deployment logs"] }

/-- The pattern catalog in the insertion order of _initialize_patterns. -/
def patternCatalog : List (String × AnalysisPatternConfig) :=
  [("database_connection_error", databaseConnectionErrorPattern),
   ("memory_leak", memoryLeakPattern),
   ("network_connectivity", networkConnectivityPattern),
   ("ssl_certificate", sslCertificatePattern),
   ("service_overload", serviceOverloadPattern),
   ("deployment_issue", deploymentIssuePattern)]

/-- Oracle standing for the Python re module as called by the analyzer:
re.search truthiness and the re.findall match list, both with IGNORECASE. -/
structure RegexOracle where
  search : String → String → Bool
  findAll : String → String → List String

/-- Fields the analyzer reads from one network-diagnostics test result. -/
structure NetTestView where
  status : String := ""
  error : String := ""
deriving DecidableEq, Repr

/-- Projection of the triage_data dict onto the fields the analyzer reads:
log messages, network test results, the inner system-metrics dict and the
presence of database diagnostics. -/
structure TriageDataView where
  logs : List String := []
  netTests : List (String × NetTestView) := []
  sysMetrics : List (String × ℚ) := []
  hasDatabaseDiagnostics : Bool := false
deriving DecidableEq, Repr

/-- Projection of the health_check dict onto the fields the analyzer reads. -/
structure HealthCheckView where
  errorMessage : Option String := none
  sslExpiryDays : Option Int := none
deriving DecidableEq, Repr

/-- Decimal-free rendering of a rational, standing in for the Python number
formatting inside f-strings. -/
def ratToText (q : ℚ) : String :=
  if q.den = 1 then toString q.num else toString q.num ++ "/" ++ toString q.den

/-- Embedding of LLMPatternMatcher._extract_text_data: the error message when
truthy, the first 20 log messages, each network test name with its error
text, and each numeric system metric above 80, joined and lower-cased. -/
def extractTextData (hc : HealthCheckView) (td : TriageDataView) : String :=
  let errorParts := match hc.errorMessage with
    | some m => if m = "" then [] else [m]
    | none => []
  let logParts := td.logs.take 20
  let netParts := td.netTests.map (fun p => p.1 ++ ": " ++ p.2.error)
  let metricParts := (td.sysMetrics.filter (fun p => 80 < p.2)).map
    (fun p => "High " ++ p.1 ++ ": " ++ ratToText p.2)
  pyLower (String.intercalate " " (errorParts ++ logParts ++ netParts ++ metricParts))

/-- Branch table of LLMPatternMatcher._calculate_context_boost, keyed by the
recovered pattern name (none when the catalog scan found no equal config). -/
def contextBoostByName (name : Option String) (hc : HealthCheckView)
    (td : TriageDataView) : ℚ :=
  match name with
  | none => 0
  | some name =>
    if name = "database_connection_error" then
      if td.hasDatabaseDiagnostics then 0.2 else 0
    else if name = "memory_leak" then
      if 80 < (dlookup td.sysMetrics "memory_usage_percent").getD 0 then 0.3 else 0
    else if name = "network_connectivity" then
      if (td.netTests.filter (fun p =>
          p.2.status == "failed" || p.2.status == "timeout")).isEmpty then 0 else 0.3
    else if name = "ssl_certificate" then
      match hc.sslExpiryDays with
      | some d => if d ≠ 0 ∧ d < 30 then 0.4 else 0
      | none => 0
    else if name = "service_overload" then
      if 80 < (dlookup td.sysMetrics "cpu_usage_percent").getD 0 ∨
         80 < (dlookup td.sysMetrics "memory_usage_percent").getD 0 then 0.3 else 0
    else 0

/-- Embedding of LLMPatternMatcher._calculate_context_boost.  The source
recovers the pattern name by scanning the catalog for the dict equal to the
given config; the scan is reproduced here with structural equality, and the
recovered name selects the branch of the table above. -/
def calculateContextBoost (cfg : AnalysisPatternConfig) (hc : HealthCheckView)
    (td : TriageDataView) : ℚ :=
  contextBoostByName ((patternCatalog.find? (fun p => decide (p.2 = cfg))).map Prod.fst)
    hc td

/-- Number of catalog keywords occurring as substrings of the text. -/
def countKeywordMatches (cfg : AnalysisPatternConfig) (text : String) : Nat :=
  (cfg.keywords.filter (fun k => pyIn k text)).length

/-- Number of evidence regular expressions the regex engine matches in the
text. -/
def countEvidenceMatches (re : RegexOracle) (cfg : AnalysisPatternConfig)
    (text : String) : Nat :=
  (cfg.evidencePatterns.filter (fun p => re.search p text)).length

/-- Embedding of LLMPatternMatcher._calculate_pattern_confidence: keyword
ratio times 0.4, plus evidence-pattern ratio times 0.4, plus the context
boost, plus the per-pattern base boost, capped at 1. -/
def calculatePatternConfidence (re : RegexOracle) (cfg : AnalysisPatternConfig)
    (text : String) (hc : HealthCheckView) (td : TriageDataView) : ℚ :=
  pyMin (((countKeywordMatches cfg text : ℚ) / (cfg.keywords.length : ℚ)) * 0.4
     + ((countEvidenceMatches re cfg text : ℚ) / (cfg.evidencePatterns.length : ℚ)) * 0.4
     + calculateContextBoost cfg hc td
     + cfg.confidenceBoost) 1

/-- Textual content of str applied to a pattern config dict: the key names
and every string it holds, lower-cased; the numeric boost rendering cannot
introduce the probed words.  Used by the evidence extraction below for its
two containment probes. -/
def configText (cfg : AnalysisPatternConfig) : String :=
  pyLower (String.intercalate " " (["keywords"] ++ cfg.keywords
    ++ ["evidence_patterns"] ++ cfg.evidencePatterns
    ++ ["confidence_boost", "actions"] ++ cfg.actions))

/-- Embedding of LLMPatternMatcher._extract_pattern_evidence: up to three
findall matches per evidence pattern, a marker when database diagnostics
accompany a database-flavoured config, a certificate note for ssl-flavoured
configs with a truthy expiry, everything capped at five snippets. -/
def extractPatternEvidence (re : RegexOracle) (cfg : AnalysisPatternConfig)
    (text : String) (hc : HealthCheckView) (td : TriageDataView) : List String :=
  let fromPatterns := (cfg.evidencePatterns.map (fun p =>
    ((re.findAll p text).take 3).map (fun m => "Pattern match: " ++ m))).flatten
  let dbEvidence :=
    if pyIn "database" (configText cfg) && td.hasDatabaseDiagnostics then
      ["Database diagnostics available"]
    else []
  let sslEvidence :=
    if pyIn "ssl" (configText cfg) then
      match hc.sslExpiryDays with
      | some d => if d = 0 then [] else
          ["SSL certificate expires in " ++ toString d ++ " days"]
      | none => []
    else []
  (fromPatterns ++ dbEvidence ++ sslEvidence).take 5

/-- Embedding of LLMPatternMatcher._generate_pattern_description. -/
def generatePatternDescription (name : String) (evidence : List String) : String :=
  let base :=
    if name = "database_connection_error" then "Database connectivity issue detected"
    else if name = "memory_leak" then "Memory leak or excessive memory usage detected"
    else if name = "network_connectivity" then "Network connectivity problem identified"
    else if name = "ssl_certificate" then "SSL/TLS certificate issue detected"
    else if name = "service_overload" then "Service overload or resource exhaustion detected"
    else if name = "deployment_issue" then "Recent deployment-related issue detected"
    else "Pattern " ++ name ++ " detected"
  if evidence.isEmpty then base
  else base ++ " (based on " ++ toString evidence.length ++ " evidence points)"

/-- Root-cause hypothesis record (the AnalysisHypothesis dataclass); the
heterogeneous supporting_data dict is elided, the provenance staying visible
through the id prefix. -/
structure Hypothesis where
  id : String
  description : String
  confidence : ℚ
  evidence : List String
  recommendedActions : List String
deriving DecidableEq, Repr

/-- Hypothesis built by match_patterns for one catalog entry. -/
def mkPatternHypothesis (re : RegexOracle) (text : String) (hc : HealthCheckView)
    (td : TriageDataView) (p : String × AnalysisPatternConfig) : Hypothesis :=
  { id := "pattern_" ++ p.1,
    description := generatePatternDescription p.1
      (extractPatternEvidence re p.2 text hc td),
    confidence := calculatePatternConfidence re p.2 text hc td,
    evidence := extractPatternEvidence re p.2 text hc td,
    recommendedActions := p.2.actions }

/-- Ordered insertion step of the stable descending sort below: an element
moves left past strictly lower confidences only, so elements of equal
confidence keep their original relative order, as the stable Python sort
guarantees. -/
def insertByConfidence (h : Hypothesis) : List Hypothesis → List Hypothesis
  | [] => [h]
  | x :: xs =>
    if x.confidence ≤ h.confidence then h :: x :: xs
    else x :: insertByConfidence h xs

/-- Embedding of the stable Python sort by confidence with reverse=True. -/
def sortByConfidenceDesc : List Hypothesis → List Hypothesis
  | [] => []
  | x :: xs => insertByConfidence x (sortByConfidenceDesc xs)

/-- Embedding of LLMPatternMatcher.match_patterns: every catalog pattern
whose confidence exceeds the 0.1 threshold becomes a hypothesis, and the
collected hypotheses are sorted by confidence descending. -/
def matchPatterns (re : RegexOracle) (hc : HealthCheckView) (td : TriageDataView) :
    List Hypothesis :=
  let text := extractTextData hc td
  sortByConfidenceDesc (patternCatalog.filterMap (fun p =>
    if 0.1 < calculatePatternConfidence re p.2 text hc td then
      some (mkPatternHypothesis re text hc td p)
    else none))

theorem insertByConfidence_perm (h : Hypothesis) (l : List Hypothesis) :
    (insertByConfidence h l).Perm (h :: l) := by
  induction l with
  | nil => simp [insertByConfidence]
  | cons x xs ih =>
    by_cases hc : x.confidence ≤ h.confidence
    · simp [insertByConfidence, hc]
    · simp only [insertByConfidence, hc, if_false]
      exact (ih.cons x).trans (List.Perm.swap h x xs)

theorem sortByConfidenceDesc_perm (l : List Hypothesis) :
    (sortByConfidenceDesc l).Perm l := by
  induction l with
  | nil => simp [sortByConfidenceDesc]
  | cons x xs ih =>
    exact (insertByConfidence_perm x (sortByConfidenceDesc xs)).trans (ih.cons x)

theorem mem_sortByConfidenceDesc (l : List Hypothesis) (h : Hypothesis) :
    h ∈ sortByConfidenceDesc l ↔ h ∈ l :=
  (sortByConfidenceDesc_perm l).mem_iff

theorem length_sortByConfidenceDesc (l : List Hypothesis) :
    (sortByConfidenceDesc l).length = l.length :=
  (sortByConfidenceDesc_perm l).length_eq

theorem sortByConfidenceDesc_eq_nil_iff (l : List Hypothesis) :
    sortByConfidenceDesc l = [] ↔ l = [] := by
  constructor
  · intro h
    have := length_sortByConfidenceDesc l
    rw [h] at this
    exact List.length_eq_zero.mp this.symm
  · intro h
    simp [h, sortByConfidenceDesc]

theorem pairwise_insertByConfidence (h : Hypothesis) (l : List Hypothesis)
    (hl : l.Pairwise (fun a b => b.confidence ≤ a.confidence)) :
    (insertByConfidence h l).Pairwise (fun a b => b.confidence ≤ a.confidence) := by
  induction l with
  | nil => simp [insertByConfidence]
  | cons x xs ih =>
    rw [List.pairwise_cons] at hl
    by_cases hc : x.confidence ≤ h.confidence
    · simp only [insertByConfidence, hc, if_true]
      rw [List.pairwise_cons]
      refine ⟨?_, List.pairwise_cons.mpr hl⟩
      intro y hy
      rcases List.mem_cons.mp hy with hy | hy
      · exact hy ▸ hc
      · exact le_trans (hl.1 y hy) hc
    · simp only [insertByConfidence, hc, if_false]
      rw [List.pairwise_cons]
      refine ⟨?_, ih hl.2⟩
      intro y hy
      have hy2 : y ∈ h :: xs := (insertByConfidence_perm h xs).mem_iff.mp hy
      rcases List.mem_cons.mp hy2 with hy3 | hy3
      · exact hy3 ▸ le_of_lt (lt_of_not_le hc)
      · exact hl.1 y hy3

theorem pairwise_sortByConfidenceDesc (l : List Hypothesis) :
    (sortByConfidenceDesc l).Pairwise (fun a b => b.confidence ≤ a.confidence) := by
  induction l with
  | nil => simp [sortByConfidenceDesc]
  | cons x xs ih => exact pairwise_insertByConfidence x _ ih

/-- First element of the list attaining the maximal confidence; ties resolve
to the earlier element. -/
def firstMaxHyp : List Hypothesis → Option Hypothesis
  | [] => none
  | x :: xs =>
    match firstMaxHyp xs with
    | none => some x
    | some m => if m.confidence ≤ x.confidence then some x else some m

theorem firstMaxHyp_eq_none_iff (l : List Hypothesis) :
    firstMaxHyp l = none ↔ l = [] := by
  cases l with
  | nil => simp [firstMaxHyp]
  | cons x xs =>
    simp only [firstMaxHyp]
    cases firstMaxHyp xs <;> simp
    split <;> simp

theorem head_sortByConfidenceDesc (l : List Hypothesis) :
    (sortByConfidenceDesc l).head? = firstMaxHyp l := by
  induction l with
  | nil => simp [sortByConfidenceDesc, firstMaxHyp]
  | cons x xs ih =>
    simp only [sortByConfidenceDesc, firstMaxHyp]
    cases hs : sortByConfidenceDesc xs with
    | nil =>
      have hxs : xs = [] := (sortByConfidenceDesc_eq_nil_iff xs).mp hs
      subst hxs
      simp [insertByConfidence, firstMaxHyp]
    | cons y ys =>
      rw [hs] at ih
      simp only [List.head?] at ih
      rw [← ih]
      by_cases hc : y.confidence ≤ x.confidence
      · simp [insertByConfidence, hc]
      · simp [insertByConfidence, hc]

theorem firstMaxHyp_spec (l : List Hypothesis) (m : Hypothesis)
    (hm : firstMaxHyp l = some m) :
    m ∈ l ∧ ∀ x ∈ l, x.confidence ≤ m.confidence := by
  induction l generalizing m with
  | nil => exact Option.noConfusion hm
  | cons x xs ih =>
    cases hx : firstMaxHyp xs with
    | none =>
      simp only [firstMaxHyp, hx] at hm
      obtain rfl : x = m := by injection hm
      have hxs : xs = [] := (firstMaxHyp_eq_none_iff xs).mp hx
      subst hxs
      exact ⟨List.mem_singleton_self x, by simp⟩
    | some m0 =>
      simp only [firstMaxHyp, hx] at hm
      obtain ⟨hmem0, hmax0⟩ := ih m0 hx
      by_cases hc : m0.confidence ≤ x.confidence
      · rw [if_pos hc] at hm
        obtain rfl : x = m := by injection hm
        refine ⟨List.mem_cons_self x xs, ?_⟩
        intro y hy
        rcases List.mem_cons.mp hy with hy | hy
        · exact hy ▸ le_refl _
        · exact le_trans (hmax0 y hy) hc
      · rw [if_neg hc] at hm
        obtain rfl : m0 = m := by injection hm
        refine ⟨List.mem_cons_of_mem x hmem0, ?_⟩
        intro y hy
        rcases List.mem_cons.mp hy with hy | hy
        · exact hy ▸ le_of_lt (lt_of_not_le hc)
        · exact hmax0 y hy

/-- Stability of the maximum selection across a concatenation: when the left
part holds an element of maximal confidence over the whole list, the first
maximum lies in the left part. -/
theorem firstMaxHyp_append_left (l1 l2 : List Hypothesis) (h : Hypothesis)
    (hmem : h ∈ l1) (hmax : ∀ x ∈ l1 ++ l2, x.confidence ≤ h.confidence)
    (m : Hypothesis) (hm : firstMaxHyp (l1 ++ l2) = some m) : m ∈ l1 := by
  induction l1 generalizing m with
  | nil => exact absurd hmem (List.not_mem_nil h)
  | cons x xs ih =>
    rw [List.cons_append] at hm
    cases hx : firstMaxHyp (xs ++ l2) with
    | none =>
      simp only [firstMaxHyp, hx] at hm
      obtain rfl : x = m := by injection hm
      exact List.mem_cons_self x xs
    | some m0 =>
      simp only [firstMaxHyp, hx] at hm
      by_cases hc : m0.confidence ≤ x.confidence
      · rw [if_pos hc] at hm
        obtain rfl : x = m := by injection hm
        exact List.mem_cons_self x xs
      · rw [if_neg hc] at hm
        have heq : m0 = m := by injection hm
        rcases List.mem_cons.mp hmem with hh | hh
        · exfalso
          obtain ⟨hmem0, -⟩ := firstMaxHyp_spec (xs ++ l2) m0 hx
          have hle : m0.confidence ≤ h.confidence :=
            hmax m0 (List.mem_cons_of_mem x hmem0)
          exact hc (hh ▸ hle)
        · have hin : m0 ∈ xs :=
            ih hh (fun y hy => hmax y (List.mem_cons_of_mem x hy)) m0 hx
          rw [← heq]
          exact List.mem_cons_of_mem x hin

/-- Historical incident snapshot; its content is opaque to the properties
below, only its presence in the bounded history matters. -/
structure HistoricalRecord where
  raw : String
deriving DecidableEq, Repr

/-- Projection of the correlation-analysis output dict onto the fields
_perform_root_cause_analysis reads: how many similar incidents were found
and the history-derived recommendations. -/
structure CorrelationsView where
  similarIncidentsCount : Nat := 0
  recommendations : List String := []
deriving DecidableEq, Repr

/-- Embedding of AnalysisAgent._generate_correlation_hypotheses: two or more
similar historical incidents yield one recurring-pattern hypothesis with
confidence 0.1 per match capped at 0.7. -/
def generateCorrelationHypotheses (corr : CorrelationsView) : List Hypothesis :=
  if 2 ≤ corr.similarIncidentsCount then
    [{ id := "correlation_frequent_incident",
       description := "Similar incident pattern detected (occurred "
         ++ toString corr.similarIncidentsCount ++ " times historically)",
       confidence := pyMin ((corr.similarIncidentsCount : ℚ) * 0.1) 0.7,
       evidence := ["Found " ++ toString corr.similarIncidentsCount
         ++ " similar historical incidents"],
       recommendedActions := ["Investigate root cause of recurring incidents",
         "Implement preventive measures",
         "Consider system architecture review"] }]
  else []

/-- Embedding of the confidence-level bucketing inside
_perform_root_cause_analysis. -/
def determineConfidenceLevel (confidence : ℚ) : String :=
  if 0.8 ≤ confidence then "high"
  else if 0.5 ≤ confidence then "medium"
  else "low"

/-- Analysis result dict, projected onto the fields the properties below
read; the summary text and timestamps are elided. -/
structure AnalysisResultView where
  hypotheses : List Hypothesis
  primaryHypothesis : Option Hypothesis
  confidenceLevel : String
  recommendations : List String
deriving DecidableEq, Repr

/-- Return value of _perform_root_cause_analysis: the completed result dict,
or the error dict produced when the try block raises. -/
inductive AnalysisOutcome where
  | completed (result : AnalysisResultView)
  | errorResult (msg : String)
deriving DecidableEq, Repr

/-- Embedding of AnalysisAgent._perform_root_cause_analysis.  The
correlation engine enters as a functional parameter consulted only when the
history is non-empty, exactly as the local variable correlations is assigned
only inside the non-empty branch of the source; reading it on the empty
history is the NameError the except clause converts into the error dict.
The pooled hypothesis list — pattern hypotheses first, correlation
hypotheses after — is sorted by confidence descending, the head becomes the
primary hypothesis, its confidence is bucketed, and the recommendations are
the primary actions extended with any history-derived recommendations. -/
def performRootCauseAnalysis (re : RegexOracle) (hc : HealthCheckView)
    (td : TriageDataView) (history : List HistoricalRecord)
    (analyzeCorrelations : List HistoricalRecord → CorrelationsView) :
    AnalysisOutcome :=
  let patternHyps := matchPatterns re hc td
  let correlations : Option CorrelationsView :=
    if history.isEmpty then none else some (analyzeCorrelations history)
  let hyps := patternHyps ++ (match correlations with
    | some c => generateCorrelationHypotheses c
    | none => [])
  if hyps.isEmpty then
    .completed
      { hypotheses := hyps, primaryHypothesis := none,
        confidenceLevel := "low", recommendations := [] }
  else
    let sortedHyps := sortByConfidenceDesc hyps
    match sortedHyps.head? with
    | none =>
      .completed
        { hypotheses := sortedHyps, primaryHypothesis := none,
          confidenceLevel := "low", recommendations := [] }
    | some primary =>
      match correlations with
      | none => .errorResult "NameError: name correlations is not defined"
      | some corr =>
        .completed
          { hypotheses := sortedHyps, primaryHypothesis := some primary,
            confidenceLevel := determineConfidenceLevel primary.confidence,
            recommendations := primary.recommendedActions ++
              (if corr.recommendations.isEmpty then [] else corr.recommendations) }

theorem calculateContextBoost_nonneg (cfg : AnalysisPatternConfig)
    (hc : HealthCheckView) (td : TriageDataView) :
    0 ≤ calculateContextBoost cfg hc td := by
  have h : ∀ (o : Option String), 0 ≤ contextBoostByName o hc td := by
    intro o
    cases o with
    | none => norm_num [contextBoostByName]
    | some name =>
      unfold contextBoostByName
      repeat' split
      all_goals norm_num
  exact h _

theorem calculatePatternConfidence_le_one (re : RegexOracle)
    (cfg : AnalysisPatternConfig) (text : String) (hc : HealthCheckView)
    (td : TriageDataView) : calculatePatternConfidence re cfg text hc td ≤ 1 := by
  unfold calculatePatternConfidence
  rw [pyMin_eq_min]
  exact min_le_right _ _

theorem calculatePatternConfidence_nonneg (re : RegexOracle)
    (cfg : AnalysisPatternConfig) (text : String) (hc : HealthCheckView)
    (td : TriageDataView) (hb : 0 ≤ cfg.confidenceBoost) :
    0 ≤ calculatePatternConfidence re cfg text hc td := by
  unfold calculatePatternConfidence
  rw [pyMin_eq_min]
  have h1 : (0:ℚ) ≤ (countKeywordMatches cfg text : ℚ) / (cfg.keywords.length : ℚ) :=
    div_nonneg (Nat.cast_nonneg _) (Nat.cast_nonneg _)
  have h2 : (0:ℚ) ≤ (countEvidenceMatches re cfg text : ℚ) / (cfg.evidencePatterns.length : ℚ) :=
    div_nonneg (Nat.cast_nonneg _) (Nat.cast_nonneg _)
  have h3 := calculateContextBoost_nonneg cfg hc td
  apply le_min _ (by norm_num)
  nlinarith

theorem min_boost_le_calculatePatternConfidence (re : RegexOracle)
    (cfg : AnalysisPatternConfig) (text : String) (hc : HealthCheckView)
    (td : TriageDataView) :
    min cfg.confidenceBoost 1 ≤ calculatePatternConfidence re cfg text hc td := by
  unfold calculatePatternConfidence
  rw [pyMin_eq_min]
  apply min_le_min _ le_rfl
  have h1 : (0:ℚ) ≤ (countKeywordMatches cfg text : ℚ) / (cfg.keywords.length : ℚ) :=
    div_nonneg (Nat.cast_nonneg _) (Nat.cast_nonneg _)
  have h2 : (0:ℚ) ≤ (countEvidenceMatches re cfg text : ℚ) / (cfg.evidencePatterns.length : ℚ) :=
    div_nonneg (Nat.cast_nonneg _) (Nat.cast_nonneg _)
  have h3 := calculateContextBoost_nonneg cfg hc td
  nlinarith

/-- Every catalog entry carries a base boost of at least 0.2, so its
confidence clears the 0.1 hypothesis threshold on any input. -/
theorem catalog_boost_ge (name : String) (cfg : AnalysisPatternConfig)
    (hmem : (name, cfg) ∈ patternCatalog) : (0.2 : ℚ) ≤ cfg.confidenceBoost := by
  simp only [patternCatalog, List.mem_cons, List.not_mem_nil, or_false,
    Prod.mk.injEq] at hmem
  rcases hmem with ⟨-, rfl⟩ | ⟨-, rfl⟩ | ⟨-, rfl⟩ | ⟨-, rfl⟩ | ⟨-, rfl⟩ | ⟨-, rfl⟩ <;>
    norm_num [databaseConnectionErrorPattern, memoryLeakPattern,
      networkConnectivityPattern, sslCertificatePattern, serviceOverloadPattern,
      deploymentIssuePattern]

theorem catalog_confidence_gt_threshold (re : RegexOracle) (text : String)
    (hc : HealthCheckView) (td : TriageDataView) (name : String)
    (cfg : AnalysisPatternConfig) (hmem : (name, cfg) ∈ patternCatalog) :
    (0.1 : ℚ) < calculatePatternConfidence re cfg text hc td := by
  have hboost : (0.2 : ℚ) ≤ cfg.confidenceBoost := catalog_boost_ge name cfg hmem
  have h2 := min_boost_le_calculatePatternConfidence re cfg text hc td
  have h3 : (0.2 : ℚ) ≤ min cfg.confidenceBoost 1 := le_min hboost (by norm_num)
  linarith

theorem length_filterMap_of_isSome {α β : Type} (f : α → Option β) (l : List α)
    (h : ∀ x ∈ l, (f x).isSome) : (l.filterMap f).length = l.length := by
  induction l with
  | nil => simp
  | cons x xs ih =>
    obtain ⟨y, hy⟩ := Option.isSome_iff_exists.mp (h x (List.mem_cons_self x xs))
    simp [List.filterMap_cons, hy, ih (fun z hz => h z (List.mem_cons_of_mem x hz))]

/-- Membership characterization of match_patterns: the hypotheses are
exactly those built from catalog entries whose confidence exceeds 0.1. -/
theorem mem_matchPatterns_iff (re : RegexOracle) (hc : HealthCheckView)
    (td : TriageDataView) (h : Hypothesis) :
    h ∈ matchPatterns re hc td ↔
      ∃ p ∈ patternCatalog,
        0.1 < calculatePatternConfidence re p.2 (extractTextData hc td) hc td ∧
        h = mkPatternHypothesis re (extractTextData hc td) hc td p := by
  simp only [matchPatterns]
  rw [mem_sortByConfidenceDesc, List.mem_filterMap]
  constructor
  · rintro ⟨p, hp, hfp⟩
    by_cases hc1 : 0.1 < calculatePatternConfidence re p.2 (extractTextData hc td) hc td
    · rw [if_pos hc1] at hfp
      have h2 : mkPatternHypothesis re (extractTextData hc td) hc td p = h := by
        injection hfp
      exact ⟨p, hp, hc1, h2.symm⟩
    · rw [if_neg hc1] at hfp
      exact Option.noConfusion hfp
  · rintro ⟨p, hp, hc1, rfl⟩
    exact ⟨p, hp, by rw [if_pos hc1]⟩

theorem matchPatterns_ne_nil (re : RegexOracle) (hc : HealthCheckView)
    (td : TriageDataView) : matchPatterns re hc td ≠ [] := by
  intro hnil
  have hmem : ("database_connection_error", databaseConnectionErrorPattern) ∈
      patternCatalog := by simp [patternCatalog]
  have h1 : mkPatternHypothesis re (extractTextData hc td) hc td
      ("database_connection_error", databaseConnectionErrorPattern) ∈
      matchPatterns re hc td :=
    (mem_matchPatterns_iff re hc td _).mpr
      ⟨_, hmem, catalog_confidence_gt_threshold re _ hc td _ _ hmem, rfl⟩
  rw [hnil] at h1
  exact List.not_mem_nil _ h1

theorem length_matchPatterns (re : RegexOracle) (hc : HealthCheckView)
    (td : TriageDataView) :
    (matchPatterns re hc td).length = patternCatalog.length := by
  simp only [matchPatterns]
  rw [length_sortByConfidenceDesc]
  apply length_filterMap_of_isSome
  intro p hp
  have hgt := catalog_confidence_gt_threshold re (extractTextData hc td) hc td
    p.1 p.2 (by simpa using hp)
  simp [hgt]

theorem string_append_left_cancel (s a b : String) (h : s ++ a = s ++ b) :
    a = b := by
  obtain ⟨ls⟩ := s
  obtain ⟨la⟩ := a
  obtain ⟨lb⟩ := b
  have h2 : ls ++ la = ls ++ lb := congrArg String.data h
  exact congrArg String.mk (List.append_cancel_left h2)

theorem assoc_value_unique {α : Type} (m : List (String × α))
    (hnd : (m.map Prod.fst).Nodup) (k : String) (v1 v2 : α)
    (h1 : (k, v1) ∈ m) (h2 : (k, v2) ∈ m) : v1 = v2 := by
  induction m with
  | nil => cases h1
  | cons p t ih =>
    simp only [List.map_cons, List.nodup_cons] at hnd
    rcases List.mem_cons.mp h1 with e1 | e1 <;> rcases List.mem_cons.mp h2 with e2 | e2
    · have h3 : (k, v1) = (k, v2) := e1.trans e2.symm
      injection h3
    · exfalso
      apply hnd.1
      rw [← e1]
      exact List.mem_map.mpr ⟨(k, v2), e2, rfl⟩
    · exfalso
      apply hnd.1
      rw [← e2]
      exact List.mem_map.mpr ⟨(k, v1), e1, rfl⟩
    · exact ih hnd.2 e1 e2

theorem patternCatalog_names_nodup : (patternCatalog.map Prod.fst).Nodup := by
  decide

theorem extractPatternEvidence_length_le (re : RegexOracle)
    (cfg : AnalysisPatternConfig) (text : String) (hc : HealthCheckView)
    (td : TriageDataView) : (extractPatternEvidence re cfg text hc td).length ≤ 5 := by
  simp only [extractPatternEvidence]
  exact List.length_take_le _ _

theorem sort_head_eq_some (l : List Hypothesis) (h : l ≠ []) :
    ∃ m, (sortByConfidenceDesc l).head? = some m := by
  cases hs : sortByConfidenceDesc l with
  | nil => exact absurd ((sortByConfidenceDesc_eq_nil_iff l).mp hs) h
  | cons y ys => exact ⟨y, rfl⟩

/-- C5: for every catalog pattern and every input text, the confidence is
the claimed weighted sum of keyword ratio and evidence-pattern ratio plus
context and base boosts, clamped to the unit interval; a pattern yields a
hypothesis exactly when its confidence on the extracted text strictly
exceeds 0.1; and each such hypothesis carries at most five evidence snippets
and exactly the fixed recommended actions of its pattern. -/
theorem pattern_scoring_contract (re : RegexOracle) (name : String)
    (cfg : AnalysisPatternConfig) (hmem : (name, cfg) ∈ patternCatalog)
    (text : String) (hc : HealthCheckView) (td : TriageDataView) :
    (calculatePatternConfidence re cfg text hc td
       = max 0 (min (((countKeywordMatches cfg text : ℚ) / (cfg.keywords.length : ℚ)) * 0.4
           + ((countEvidenceMatches re cfg text : ℚ) / (cfg.evidencePatterns.length : ℚ)) * 0.4
           + calculateContextBoost cfg hc td + cfg.confidenceBoost) 1) ∧
     0 ≤ calculatePatternConfidence re cfg text hc td ∧
     calculatePatternConfidence re cfg text hc td ≤ 1) ∧
    ((∃ h ∈ matchPatterns re hc td, h.id = "pattern_" ++ name) ↔
      0.1 < calculatePatternConfidence re cfg (extractTextData hc td) hc td) ∧
    (∀ h ∈ matchPatterns re hc td, h.id = "pattern_" ++ name →
      h.evidence.length ≤ 5 ∧ h.recommendedActions = cfg.actions ∧
      h.confidence = calculatePatternConfidence re cfg (extractTextData hc td) hc td) := by
  have hb : (0:ℚ) ≤ cfg.confidenceBoost :=
    le_trans (by norm_num) (catalog_boost_ge name cfg hmem)
  have hnn : 0 ≤ calculatePatternConfidence re cfg text hc td :=
    calculatePatternConfidence_nonneg re cfg text hc td hb
  refine ⟨⟨?_, hnn, calculatePatternConfidence_le_one re cfg text hc td⟩, ?_, ?_⟩
  · have hpm : calculatePatternConfidence re cfg text hc td
        = min (((countKeywordMatches cfg text : ℚ) / (cfg.keywords.length : ℚ)) * 0.4
          + ((countEvidenceMatches re cfg text : ℚ) / (cfg.evidencePatterns.length : ℚ)) * 0.4
          + calculateContextBoost cfg hc td + cfg.confidenceBoost) 1 := pyMin_eq_min _ _
    rw [hpm]
    exact (max_eq_right (hpm ▸ hnn)).symm
  · constructor
    · intro _
      exact catalog_confidence_gt_threshold re (extractTextData hc td) hc td name cfg hmem
    · intro hgt
      refine ⟨mkPatternHypothesis re (extractTextData hc td) hc td (name, cfg), ?_, rfl⟩
      exact (mem_matchPatterns_iff re hc td _).mpr ⟨(name, cfg), hmem, hgt, rfl⟩
  · intro h hmem2 hid
    obtain ⟨p, hp, hgt, rfl⟩ := (mem_matchPatterns_iff re hc td h).mp hmem2
    have hname : p.1 = name := string_append_left_cancel "pattern_" p.1 name hid
    have hp2 : (name, p.2) ∈ patternCatalog := by
      rw [← hname]
      simpa using hp
    have hcfg : p.2 = cfg :=
      assoc_value_unique patternCatalog patternCatalog_names_nodup name p.2 cfg hp2 hmem
    refine ⟨extractPatternEvidence_length_le re p.2 (extractTextData hc td) hc td, ?_, ?_⟩
    · rw [← hcfg]
      rfl
    · rw [← hcfg]
      rfl

/-- On a history with empty truthiness, the analysis always takes the
NameError path: the hypothesis pool is never empty, so the primary branch
runs and reads the never-assigned local correlations. -/
theorem analysis_errors_on_empty_history_aux (re : RegexOracle)
    (hc : HealthCheckView) (td : TriageDataView) (history : List HistoricalRecord)
    (ac : List HistoricalRecord → CorrelationsView) (hh : history.isEmpty = true) :
    performRootCauseAnalysis re hc td history ac
      = .errorResult "NameError: name correlations is not defined" := by
  have h0 : history = [] := List.isEmpty_iff.mp hh
  subst h0
  simp only [performRootCauseAnalysis, List.isEmpty_nil, if_true, List.append_nil]
  have hne : matchPatterns re hc td ≠ [] := matchPatterns_ne_nil re hc td
  have hempty : (matchPatterns re hc td).isEmpty = false := by
    rw [List.isEmpty_eq_false]
    exact hne
  rw [hempty]
  obtain ⟨m, hm⟩ := sort_head_eq_some (matchPatterns re hc td) hne
  simp only [Bool.false_eq_true, if_false, hm]

/-- C10: on every input — regardless of the health-check data, the triage
data and the regex engine answers — each of the six catalog patterns clears
the 0.1 threshold through its base boost of at least 0.2 alone, so
match_patterns returns one hypothesis per catalog pattern, the hypothesis
list is never empty, and every completed analysis carries a non-empty
hypothesis list and a primary hypothesis: the no-qualifying-hypothesis
outcome is unreachable. -/
theorem all_catalog_patterns_always_match (re : RegexOracle)
    (hc : HealthCheckView) (td : TriageDataView) :
    patternCatalog.length = 6 ∧
    (matchPatterns re hc td).length = 6 ∧
    (∀ p ∈ patternCatalog, ∃ h ∈ matchPatterns re hc td, h.id = "pattern_" ++ p.1) ∧
    matchPatterns re hc td ≠ [] ∧
    (∀ (history : List HistoricalRecord)
       (ac : List HistoricalRecord → CorrelationsView) (r : AnalysisResultView),
       performRootCauseAnalysis re hc td history ac = .completed r →
       r.hypotheses ≠ [] ∧ r.primaryHypothesis.isSome) := by
  refine ⟨rfl, ?_, ?_, matchPatterns_ne_nil re hc td, ?_⟩
  · rw [length_matchPatterns]
    rfl
  · intro p hp
    refine ⟨mkPatternHypothesis re (extractTextData hc td) hc td p, ?_, rfl⟩
    refine (mem_matchPatterns_iff re hc td _).mpr ⟨p, hp, ?_, rfl⟩
    exact catalog_confidence_gt_threshold re _ hc td p.1 p.2 (by simpa using hp)
  · intro history ac r hr
    cases hh : history.isEmpty with
    | true =>
      rw [analysis_errors_on_empty_history_aux re hc td history ac hh] at hr
      exact AnalysisOutcome.noConfusion hr
    | false =>
      simp only [performRootCauseAnalysis, hh, Bool.false_eq_true, if_false] at hr
      have hne : matchPatterns re hc td ++
          generateCorrelationHypotheses (ac history) ≠ [] := by
        intro hnil
        rcases List.append_eq_nil.mp hnil with ⟨h1, -⟩
        exact matchPatterns_ne_nil re hc td h1
      have hempty2 : (matchPatterns re hc td ++
          generateCorrelationHypotheses (ac history)).isEmpty = false := by
        rw [List.isEmpty_eq_false]
        exact hne
      rw [hempty2] at hr
      obtain ⟨m, hm⟩ := sort_head_eq_some _ hne
      simp only [Bool.false_eq_true, if_false, hm] at hr
      have h2 : AnalysisResultView.mk
          (sortByConfidenceDesc (matchPatterns re hc td ++
            generateCorrelationHypotheses (ac history)))
          (some m)
          (determineConfidenceLevel m.confidence)
          (m.recommendedActions ++
            (if (ac history).recommendations.isEmpty then []
             else (ac history).recommendations)) = r := by
        injection hr
      rw [← h2]
      refine ⟨?_, rfl⟩
      intro hnil
      rcases (sortByConfidenceDesc_eq_nil_iff _).mp hnil |> List.append_eq_nil.mp
        with ⟨h1, -⟩
      exact matchPatterns_ne_nil re hc td h1

/-- C8 (supporting theorem): on an empty historical-incident store — the
state every fresh analysis agent starts in — _perform_root_cause_analysis
always takes the error path: the hypothesis list is never empty, so the
primary-hypothesis branch runs, and there it reads the local variable
correlations, which is assigned only when the history is non-empty; the
resulting NameError is caught and converted into the error dict, so no
completed result with recommendations is ever produced. -/
theorem analysis_errors_on_empty_history (re : RegexOracle)
    (hc : HealthCheckView) (td : TriageDataView)
    (ac : List HistoricalRecord → CorrelationsView) :
    performRootCauseAnalysis re hc td [] ac
      = .errorResult "NameError: name correlations is not defined" :=
  analysis_errors_on_empty_history_aux re hc td [] ac rfl

/-- C4: in every completed analysis with at least one hypothesis, the final
hypothesis list is sorted by confidence descending, the selected primary
hypothesis attains the maximal confidence of the pool, and whenever some
pattern-generated hypothesis ties that maximum the primary is itself a
pattern-generated hypothesis — the stable sort keeps pattern hypotheses,
pooled first, ahead of correlation hypotheses of equal confidence. -/
theorem primary_hypothesis_ranking (re : RegexOracle) (hc : HealthCheckView)
    (td : TriageDataView) (history : List HistoricalRecord)
    (ac : List HistoricalRecord → CorrelationsView) (r : AnalysisResultView)
    (hcomp : performRootCauseAnalysis re hc td history ac = .completed r)
    (hne : r.hypotheses ≠ []) :
    List.Pairwise (fun a b => b.confidence ≤ a.confidence) r.hypotheses ∧
    ∃ p, r.primaryHypothesis = some p ∧ p ∈ r.hypotheses ∧
      (∀ h ∈ r.hypotheses, h.confidence ≤ p.confidence) ∧
      ((∃ hp ∈ matchPatterns re hc td,
          ∀ h ∈ r.hypotheses, h.confidence ≤ hp.confidence) →
        p ∈ matchPatterns re hc td) := by
  cases hh : history.isEmpty with
  | true =>
    rw [analysis_errors_on_empty_history_aux re hc td history ac hh] at hcomp
    exact AnalysisOutcome.noConfusion hcomp
  | false =>
    simp only [performRootCauseAnalysis, hh, Bool.false_eq_true, if_false] at hcomp
    have hnepool : matchPatterns re hc td ++
        generateCorrelationHypotheses (ac history) ≠ [] := by
      intro hnil
      rcases List.append_eq_nil.mp hnil with ⟨h1, -⟩
      exact matchPatterns_ne_nil re hc td h1
    have hempty2 : (matchPatterns re hc td ++
        generateCorrelationHypotheses (ac history)).isEmpty = false := by
      rw [List.isEmpty_eq_false]
      exact hnepool
    rw [hempty2] at hcomp
    obtain ⟨m, hm⟩ := sort_head_eq_some _ hnepool
    simp only [Bool.false_eq_true, if_false, hm] at hcomp
    have h2 : AnalysisResultView.mk
        (sortByConfidenceDesc (matchPatterns re hc td ++
          generateCorrelationHypotheses (ac history)))
        (some m)
        (determineConfidenceLevel m.confidence)
        (m.recommendedActions ++
          (if (ac history).recommendations.isEmpty then []
           else (ac history).recommendations)) = r := by
      injection hcomp
    rw [← h2]
    have hfm : firstMaxHyp (matchPatterns re hc td ++
        generateCorrelationHypotheses (ac history)) = some m := by
      rw [← head_sortByConfidenceDesc]
      exact hm
    obtain ⟨hmmem, hmmax⟩ := firstMaxHyp_spec _ m hfm
    refine ⟨pairwise_sortByConfidenceDesc _, m, rfl, ?_, ?_, ?_⟩
    · exact (mem_sortByConfidenceDesc _ m).mpr hmmem
    · intro h hh2
      exact hmmax h ((mem_sortByConfidenceDesc _ h).mp hh2)
    · rintro ⟨hp, hpmem, hpmax⟩
      refine firstMaxHyp_append_left _ _ hp hpmem ?_ m hfm
      intro x hx
      exact hpmax x ((mem_sortByConfidenceDesc _ x).mpr hx)

/-- C9: the confidence-level bucketing is total and single-valued on the
unit interval: 0.8 and above maps to high, at least 0.5 below 0.8 to
medium, everything else to low, and these three cases are exhaustive and
mutually exclusive. -/
theorem confidence_level_bucketing_total (c : ℚ) (h0 : 0 ≤ c) (h1 : c ≤ 1) :
    (determineConfidenceLevel c = "high" ∨ determineConfidenceLevel c = "medium" ∨
     determineConfidenceLevel c = "low") ∧
    (determineConfidenceLevel c = "high" ↔ 0.8 ≤ c) ∧
    (determineConfidenceLevel c = "medium" ↔ 0.5 ≤ c ∧ c < 0.8) ∧
    (determineConfidenceLevel c = "low" ↔ c < 0.5) := by
  by_cases h8 : (0.8:ℚ) ≤ c
  · unfold determineConfidenceLevel
    rw [if_pos h8]
    refine ⟨Or.inl rfl, ⟨fun _ => h8, fun _ => rfl⟩, ?_, ?_⟩
    · exact ⟨fun hx => absurd hx (by decide), fun hx => absurd h8 (not_le.mpr hx.2)⟩
    · refine ⟨fun hx => absurd hx (by decide), fun hx => ?_⟩
      exact absurd h8 (not_le.mpr (by linarith))
  · by_cases h5 : (0.5:ℚ) ≤ c
    · unfold determineConfidenceLevel
      rw [if_neg h8, if_pos h5]
      refine ⟨Or.inr (Or.inl rfl), ?_, ?_, ?_⟩
      · exact ⟨fun hx => absurd hx (by decide), fun hx => absurd hx h8⟩
      · exact ⟨fun _ => ⟨h5, lt_of_not_le h8⟩, fun _ => rfl⟩
      · exact ⟨fun hx => absurd hx (by decide), fun hx => absurd h5 (not_le.mpr hx)⟩
    · unfold determineConfidenceLevel
      rw [if_neg h8, if_neg h5]
      refine ⟨Or.inr (Or.inr rfl), ?_, ?_, ?_⟩
      · refine ⟨fun hx => absurd hx (by decide), fun hx => ?_⟩
        exact absurd hx (by intro h2; exact h5 (by linarith))
      · exact ⟨fun hx => absurd hx (by decide), fun hx => absurd hx.1 h5⟩
      · exact ⟨fun _ => lt_of_not_le h5, fun _ => rfl⟩

/-- Fixture: regex oracle with no matches, standing for a regex engine run
on text that matches nothing. -/
def trivialRegexOracle : RegexOracle :=
  { search := fun _ _ => false, findAll := fun _ _ => [] }

/-- Fixture: health-check view with no optional fields. -/
def emptyHealthCheck : HealthCheckView := {}

/-- Fixture: triage-data view with no collected data. -/
def emptyTriageData : TriageDataView := {}

/-- Fixture: a one-element historical store. -/
def historyFixture : List HistoricalRecord := [⟨"INC_0"⟩]

/-- Fixture: correlation engine finding nothing. -/
def corrEngineFixture : List HistoricalRecord → CorrelationsView := fun _ => {}

/-- Fixture: one full analysis run over the fixtures. -/
def analysisRunFixture : AnalysisOutcome :=
  performRootCauseAnalysis trivialRegexOracle emptyHealthCheck emptyTriageData
    historyFixture corrEngineFixture

/-- Fixture: the completed result of the analysis run above. -/
def analysisResultFixture : AnalysisResultView :=
  match analysisRunFixture with
  | .completed r => r
  | .errorResult _ => ⟨[], none, "low", []⟩

/-- Witness for C4: the fixture run completes with a non-empty hypothesis
list that is sorted by confidence descending. -/
theorem primary_hypothesis_ranking_witness :
    (performRootCauseAnalysis trivialRegexOracle emptyHealthCheck emptyTriageData
        historyFixture corrEngineFixture = .completed analysisResultFixture ∧
     analysisResultFixture.hypotheses ≠ []) ∧
    List.Pairwise (fun a b => b.confidence ≤ a.confidence)
      analysisResultFixture.hypotheses :=
  ⟨⟨by decide, by decide⟩,
   (primary_hypothesis_ranking trivialRegexOracle emptyHealthCheck emptyTriageData
     historyFixture corrEngineFixture analysisResultFixture (by decide) (by decide)).1⟩

/-- Witness for C5: the database pattern is in the catalog, its confidence
on the empty text lies in the unit interval, and it appears among the
returned hypotheses. -/
theorem pattern_scoring_contract_witness :
    ("database_connection_error", databaseConnectionErrorPattern) ∈ patternCatalog ∧
    (0 ≤ calculatePatternConfidence trivialRegexOracle databaseConnectionErrorPattern ""
        emptyHealthCheck emptyTriageData ∧
     calculatePatternConfidence trivialRegexOracle databaseConnectionErrorPattern ""
        emptyHealthCheck emptyTriageData ≤ 1) ∧
    (∃ h ∈ matchPatterns trivialRegexOracle emptyHealthCheck emptyTriageData,
       h.id = "pattern_" ++ "database_connection_error") :=
  ⟨by decide,
   ⟨(pattern_scoring_contract trivialRegexOracle "database_connection_error"
       databaseConnectionErrorPattern (by decide) "" emptyHealthCheck
       emptyTriageData).1.2.1,
    (pattern_scoring_contract trivialRegexOracle "database_connection_error"
       databaseConnectionErrorPattern (by decide) "" emptyHealthCheck
       emptyTriageData).1.2.2⟩,
   (pattern_scoring_contract trivialRegexOracle "database_connection_error"
       databaseConnectionErrorPattern (by decide) "" emptyHealthCheck
       emptyTriageData).2.1.mpr (by decide)⟩

/-- Witness for C10: the ssl pattern always yields a hypothesis, and the
fixture analysis run carries a non-empty hypothesis list and a primary
hypothesis. -/
theorem all_catalog_patterns_always_match_witness :
    (∃ h ∈ matchPatterns trivialRegexOracle emptyHealthCheck emptyTriageData,
       h.id = "pattern_" ++ ("ssl_certificate", sslCertificatePattern).1) ∧
    (analysisResultFixture.hypotheses ≠ [] ∧
     analysisResultFixture.primaryHypothesis.isSome) :=
  ⟨(all_catalog_patterns_always_match trivialRegexOracle emptyHealthCheck
      emptyTriageData).2.2.1 ("ssl_certificate", sslCertificatePattern) (by decide),
   (all_catalog_patterns_always_match trivialRegexOracle emptyHealthCheck
      emptyTriageData).2.2.2.2 historyFixture corrEngineFixture
      analysisResultFixture (by decide)⟩

/-- Witness for C9: the value 0.9 lies in the unit interval and buckets to
high. -/
theorem confidence_level_bucketing_total_witness :
    ((0:ℚ) ≤ 0.9 ∧ (0.9:ℚ) ≤ 1) ∧ determineConfidenceLevel 0.9 = "high" :=
  ⟨⟨by norm_num, by norm_num⟩,
   (confidence_level_bucketing_total 0.9 (by norm_num) (by norm_num)).2.1.mpr
     (by norm_num)⟩

end DevOpsSentinel
